import Mathlib

/-!
# Verification of the `0x02-redis_basic` instrumentation layer

Shallow embedding of `exercise.py` (the `RedisCache` class) and `web.py`
(the `count_url_access` decorator and `get_page`) over an explicit model of
the external Redis store, together with theorems settling the frozen claims
about the repository.

Byte strings are modelled by the distinctions the code actually makes when
it looks at them: a byte string is either a valid UTF-8 encoding of some
string, the ASCII decimal representation of an integer (the form Redis
`INCR` produces, also valid UTF-8), or an invalid-UTF-8 blob remembered by
what decoding it with `errors="ignore"` yields.
-/

/-- A Python byte string, abstracted by the operations the code applies to it:
strict UTF-8 decoding, `errors="ignore"` decoding, truthiness, and integer
parsing.  `utf8 s` is a valid UTF-8 encoding of `s`; `num n` is the ASCII
decimal representation of the integer `n` (as written back by Redis `INCR`);
`invalid ignored` is a byte string that is not valid UTF-8 and whose
`errors="ignore"` decoding yields `ignored`. -/
inductive Bytes where
  | utf8 (s : String)
  | num (n : Int)
  | invalid (ignored : String)
  deriving DecidableEq, Repr

/-- Python truthiness of a byte string: `False` exactly for `b""`.
`num n` is never empty; an invalid byte string is nonempty (the empty byte
string is valid UTF-8). -/
def Bytes.isTruthy : Bytes → Bool
  | .utf8 s => !s.isEmpty
  | .num _ => true
  | .invalid _ => true

/-- Python exceptions that the embedded code can raise. -/
inductive PyErr where
  | valueError
  | attributeError
  | unicodeDecodeError
  deriving DecidableEq, Repr

/-- Strict UTF-8 decoding, `bytes.decode("utf-8")`: succeeds exactly on valid
UTF-8, raising `UnicodeDecodeError` otherwise. -/
def Bytes.decodeStrict : Bytes → Except PyErr String
  | .utf8 s => .ok s
  | .num n => .ok (toString n)
  | .invalid _ => .error .unicodeDecodeError

/-- Lossy UTF-8 decoding, `bytes.decode("utf-8", "ignore")`: never raises;
invalid sequences are dropped, yielding the remembered `ignored` string. -/
def Bytes.decodeIgnore : Bytes → String
  | .utf8 s => s
  | .num n => toString n
  | .invalid ignored => ignored

/-- Accumulating decimal parser: consumes the remaining characters, failing
on the first non-digit. -/
def decimalNatAux : List Char → Nat → Option Nat
  | [], acc => some acc
  | c :: cs, acc =>
    if c.isDigit then decimalNatAux cs (acc * 10 + (c.toNat - 48)) else none

/-- Decimal integer parsing of a string, as performed by Redis `INCR` and by
Python `int()` on decoded text: an optional leading minus sign followed by
at least one ASCII digit. -/
def strToInt? (s : String) : Option Int :=
  match s.data with
  | [] => none
  | '-' :: cs =>
    if cs.isEmpty then none
    else (decimalNatAux cs 0).map fun n => -(n : Int)
  | cs => (decimalNatAux cs 0).map fun n => (n : Int)

/-- The integer value of a byte string holding a decimal integer, as parsed
by Redis `INCR` and by Python `int()` on the decoded text; `none` when the
bytes are not a decimal integer. -/
def Bytes.toIntValue : Bytes → Option Int
  | .utf8 s => strToInt? s
  | .num n => some n
  | .invalid _ => none

/-- The state of the external Redis database (db 0): plain string keys with
their values, list keys with their element sequences, and the per-key
time-to-live set by `EXPIRE` (in seconds), `none` when no expiry is set. -/
structure RedisState where
  store : String → Option Bytes
  lists : String → List Bytes
  ttl : String → Option Nat

/-- The empty database, as left behind by `FLUSHDB`. -/
def RedisState.flushed : RedisState :=
  { store := fun _ => none, lists := fun _ => [], ttl := fun _ => none }

/-- One call into the Redis client, recorded so that theorems can speak about
which operations the system performs.  `get` and `lrange` are reads; the
others mutate the database. -/
inductive RedisOp where
  | get (key : String)
  | lrange (key : String)
  | set (key : String) (value : Bytes)
  | incr (key : String)
  | rpush (key : String) (value : Bytes)
  | expire (key : String) (seconds : Nat)
  | flushdb
  deriving DecidableEq, Repr

/-- Whether a Redis operation mutates the database. -/
def RedisOp.isMutation : RedisOp → Bool
  | .get _ => false
  | .lrange _ => false
  | _ => true

/-- Redis `SET key value`: stores the value and clears any time-to-live on the key. -/
def redisSet (k : String) (v : Bytes) (s : RedisState) : RedisState :=
  { s with
    store := fun q => if q = k then some v else s.store q
    ttl := fun q => if q = k then none else s.ttl q }

/-- Redis `GET key`. -/
def redisGet (k : String) (s : RedisState) : Option Bytes :=
  s.store k

/-- Whether `INCR key` succeeds on this state: the key is absent or holds a
decimal integer.  Redis raises an error otherwise. -/
def incrOk (k : String) (s : RedisState) : Bool :=
  match s.store k with
  | none => true
  | some b => b.toIntValue.isSome

/-- Redis `INCR key`: an absent key is treated as 0 and set to 1; a key holding a
decimal integer is replaced by its successor.  On a non-integer value Redis
raises an error and leaves the state unchanged; the embedding models that
error path as the unchanged state, and every theorem whose trace reaches it
carries an `incrOk` hypothesis. -/
def redisIncr (k : String) (s : RedisState) : RedisState :=
  match s.store k with
  | none => { s with store := fun q => if q = k then some (.num 1) else s.store q }
  | some b =>
    match b.toIntValue with
    | some n => { s with store := fun q => if q = k then some (.num (n + 1)) else s.store q }
    | none => s

/-- Redis `RPUSH key value`: appends to the right end of the list at `key`. -/
def redisRpush (k : String) (v : Bytes) (s : RedisState) : RedisState :=
  { s with lists := fun q => if q = k then s.lists k ++ [v] else s.lists q }

/-- Redis `LRANGE key 0 -1`: the whole list at `key`. -/
def redisLrangeAll (k : String) (s : RedisState) : List Bytes :=
  s.lists k

/-- Redis `EXPIRE key seconds`: sets a time-to-live on an existing key; a missing
key is left untouched. -/
def redisExpire (k : String) (n : Nat) (s : RedisState) : RedisState :=
  { s with
    ttl := fun q => if q = k then (if (s.store k).isSome then some n else s.ttl q) else s.ttl q }

/-- Redis `FLUSHDB`: removes every key of the database. -/
def redisFlushdb (_ : RedisState) : RedisState :=
  RedisState.flushed

/-- A value a Python caller can pass to `RedisCache.store`:
`Union[str, bytes, int, float]`.  A float is identified by the string
`repr` the Redis client serialises it to. -/
inductive PyData where
  | str (s : String)
  | bytes (b : Bytes)
  | int (n : Int)
  | float (r : String)
  deriving DecidableEq, Repr

/-- How the Redis client encodes a Python value to bytes before `SET`:
strings are UTF-8 encoded, bytes pass through, ints and floats become the
UTF-8 bytes of their decimal text. -/
def PyData.encode : PyData → Bytes
  | .str s => .utf8 s
  | .bytes b => b
  | .int n => .utf8 (toString n)
  | .float r => .utf8 r

/-- The decoded result a retrieval returns: Python `Union[str, int]`. -/
inductive StrOrInt where
  | str (s : String)
  | int (n : Int)
  deriving DecidableEq, Repr

instance {ε α : Type} [DecidableEq ε] [DecidableEq α] : DecidableEq (Except ε α) := fun x y =>
  match x, y with
  | .ok a, .ok b =>
    if h : a = b then isTrue (by rw [h]) else isFalse (by simp [h])
  | .error a, .error b =>
    if h : a = b then isTrue (by rw [h]) else isFalse (by simp [h])
  | .ok _, .error _ => isFalse fun hc => Except.noConfusion hc
  | .error _, .ok _ => isFalse fun hc => Except.noConfusion hc

/-- Python `==` between a retrieval result and an originally stored value:
a str equals only the same str, an int equals only the same int; a str never
equals a bytes, int, or float, and an int never equals a str. -/
def StrOrInt.eqData : StrOrInt → PyData → Bool
  | .str s, .str t => s = t
  | .int n, .int m => n = m
  | _, _ => false

namespace RedisCache

/-- Embeds `RedisCache._decode_value`: try to decode the bytes as UTF-8 and return
the decoded string; on any exception (including `value` being `None`) return
the default.  The Python default for `default` is `""`. -/
def decode_value (value : Option Bytes) (dflt : StrOrInt) : StrOrInt :=
  match value with
  | some (.utf8 s) => .str s
  | some (.num n) => .str (toString n)
  | _ => dflt

/-- Embeds `RedisCache._get_function_key`: the function's `__qualname__`.  For
`RedisCache.store` that is the string below. -/
def store_qualname : String := "RedisCache.store"

/-- Embeds `RedisCache.__init__`: connects to Redis and calls `flushdb()`.
Returns the resulting database state and the trace of Redis calls made. -/
def init (s : RedisState) : RedisState × List RedisOp :=
  (redisFlushdb s, [.flushdb])

/-- The undecorated body of `RedisCache.store`: generate a key (`uuid4`,
supplied here as `genKey`), `SET` it to the encoded data, and return the key. -/
def store (genKey : String) (data : PyData) (s : RedisState) : String × RedisState :=
  (genKey, redisSet genKey data.encode s)

/-- The string form of a call argument as recorded in the call history. -/
def PyData.asStr : PyData → String
  | .str s => s
  | .bytes b => b.decodeIgnore
  | .int n => toString n
  | .float r => r

/-- Modelled from the spec: the `count_calls` decorator applied to
`RedisCache.store` is referenced in `exercise.py` but its definition is not
part of the repository's sources.  Per the spec the system "counts
invocations of decorated functions" in "a per-function counter keyed by a
derived name" (the qualified name, `_get_function_key`) and "records call
history (inputs/outputs) for replay" in "two ordered sequences (call inputs,
call outputs) per function", stored under the `<qualname>:inputs` and
`<qualname>:outputs` list keys that `replay` reads.  An invocation therefore
increments the counter, appends the input to the inputs list, runs the
wrapped body, and appends the output to the outputs list. -/
def store_decorated (genKey : String) (data : PyData) (s : RedisState) :
    String × RedisState × List RedisOp :=
  let s1 := redisIncr store_qualname s
  let s2 := redisRpush (store_qualname ++ ":inputs") (.utf8 (PyData.asStr data)) s1
  let (key, s3) := store genKey data s2
  let s4 := redisRpush (store_qualname ++ ":outputs") (.utf8 key) s3
  (key, s4,
    [.incr store_qualname,
     .rpush (store_qualname ++ ":inputs") (.utf8 (PyData.asStr data)),
     .set genKey data.encode,
     .rpush (store_qualname ++ ":outputs") (.utf8 key)])

/-- Embeds `RedisCache.get`: read the key and either apply `_decode_value` with its
default of `""` (when no decode function is given) or apply the caller's
decode function to the raw reply, which may raise. -/
def get (s : RedisState) (key : String)
    (decode_function : Option (Option Bytes → Except PyErr StrOrInt)) :
    Except PyErr StrOrInt :=
  let value := redisGet key s
  match decode_function with
  | none => .ok (decode_value value (.str ""))
  | some f => f value

/-- Embeds `RedisCache.get_str`: `get` with `_decode_value` as the decode function
(a total function: its internal try/except returns the default `""`). -/
def get_str (s : RedisState) (key : String) : Except PyErr StrOrInt :=
  get s key (some fun value => .ok (decode_value value (.str "")))

/-- The decode function `get_int` passes to `get`:
`lambda value: int(value.decode("utf-8", "ignore"))`.  A `None` reply raises
`AttributeError`; non-numeric text makes `int()` raise `ValueError`; nothing
catches either. -/
def get_int_decode (value : Option Bytes) : Except PyErr StrOrInt :=
  match value with
  | none => .error .attributeError
  | some b =>
    match strToInt? b.decodeIgnore with
    | some n => .ok (.int n)
    | none => .error .valueError

/-- Embeds `RedisCache.get_int`: `get` with the int-parsing lambda. -/
def get_int (s : RedisState) (key : String) : Except PyErr StrOrInt :=
  get s key (some get_int_decode)

end RedisCache

/-- The formatted line `replay` prints for one recorded call after strictly
decoding the recorded input and output. -/
def replayLine (funcKey inp outp : String) : String :=
  funcKey ++ "(*" ++ inp ++ ") -> " ++ outp

/-- The printing loop of `RedisCache.replay`: zip the `<qualname>:inputs`
and `<qualname>:outputs` lists pairwise and render one line per pair,
strictly decoding each side (`inp.decode("utf-8")` raises on invalid
UTF-8). -/
def replayPairs (funcKey : String) : List (Bytes × Bytes) → Except PyErr (List String)
  | [] => .ok []
  | (i, o) :: rest =>
    match i.decodeStrict, o.decodeStrict, replayPairs funcKey rest with
    | .ok di, .ok dou, .ok more => .ok (replayLine funcKey di dou :: more)
    | .error e, _, _ => .error e
    | .ok _, .error e, _ => .error e
    | .ok _, .ok _, .error e => .error e

/-- Embeds `RedisCache.replay`, restricted to its call lines: `LRANGE` both history
lists in full and print the zipped pairs in order. -/
def replay_call_lines (funcKey : String) (s : RedisState) : Except PyErr (List String) :=
  replayPairs funcKey ((redisLrangeAll (funcKey ++ ":inputs") s).zip
    (redisLrangeAll (funcKey ++ ":outputs") s))

/-- The `wrapper` closure of `count_url_access` in `web.py`, with the wrapped
`method` (an HTTP fetch) passed as a pure function.  A truthy cached value at
`cached:<url>` is decoded and returned without touching the counter;
otherwise the page is fetched, `count:<url>` is incremented, the body is
stored at `cached:<url>`, and a 10-second expiry is set on it.  Returns the
result (the decode of an invalid cached value raises), the new state, and
the trace of Redis calls. -/
def count_url_access (method : String → String) (url : String) (s : RedisState) :
    Except PyErr String × RedisState × List RedisOp :=
  let cached_key := "cached:" ++ url
  match redisGet cached_key s with
  | some b =>
    if b.isTruthy then
      (b.decodeStrict, s, [.get cached_key])
    else
      countUrlAccessMiss method url s
  | none => countUrlAccessMiss method url s
where
  /-- The cache-miss path of `wrapper`: fetch, `INCR count:<url>`,
  `SET cached:<url>`, `EXPIRE cached:<url> 10`. -/
  countUrlAccessMiss (method : String → String) (url : String) (s : RedisState) :
      Except PyErr String × RedisState × List RedisOp :=
    let cached_key := "cached:" ++ url
    let count_key := "count:" ++ url
    let html := method url
    let s1 := redisIncr count_key s
    let s2 := redisSet cached_key (.utf8 html) s1
    let s3 := redisExpire cached_key 10 s2
    (.ok html, s3,
      [.get cached_key, .incr count_key, .set cached_key (.utf8 html),
       .expire cached_key 10])

/-- Embeds `get_page`: `count_url_access` applied to the HTTP fetch
`lambda url: requests.get(url).text`, the fetch passed as a pure function. -/
def get_page (fetch : String → String) (url : String) (s : RedisState) :
    Except PyErr String × RedisState × List RedisOp :=
  count_url_access fetch url s

/-- The integer value of the counter stored at `k` (0 when absent), the
number `replay` and the URL tracker read back. -/
def counterValue (s : RedisState) (k : String) : Int :=
  ((s.store k).bind Bytes.toIntValue).getD 0

/-- A sequence of `n` calls to the decorated `RedisCache.store`, the `i`-th
call drawing its key from the stream `keys` (the model of the successive
`uuid4()` results) and storing `datas i`; returns the list of returned
identifiers in call order and the final state. -/
def runStores (keys : Nat → String) (datas : Nat → PyData) :
    Nat → RedisState → List String × RedisState
  | 0, s => ([], s)
  | n + 1, s =>
    let prev := runStores keys datas n s
    let r := RedisCache.store_decorated (keys n) (datas n) prev.2
    (prev.1 ++ [r.1], r.2.1)

/-- The spec's allowlist of atomic store mutations: "set, increment,
list-append, expire". -/
def RedisOp.inSpecAllowlist : RedisOp → Bool
  | .set _ _ => true
  | .incr _ => true
  | .rpush _ _ => true
  | .expire _ _ => true
  | _ => false

/-- A Redis call obeys the spec's mutation discipline when it is a read or
one of the allowlisted atomic mutations. -/
def RedisOp.specAllowed (op : RedisOp) : Bool :=
  !op.isMutation || op.inSpecAllowlist

/-- The amended mutation discipline: the spec's allowlist extended with the
database flush performed at initialization. -/
def RedisOp.specAllowedAmended (op : RedisOp) : Bool :=
  !op.isMutation || op.inSpecAllowlist || op == RedisOp.flushdb

/-- C9: constructing a `RedisCache` flushes the database: immediately after
`__init__` returns, no key previously present remains — every plain key and
list key is gone and no expiry survives, whatever the prior state. -/
theorem c9_init_flushes_everything (s : RedisState) (k : String) :
    (RedisCache.init s).1.store k = none ∧ (RedisCache.init s).1.lists k = []
    ∧ (RedisCache.init s).1.ttl k = none :=
  ⟨rfl, rfl, rfl⟩

/-- C10: for a key absent from the store, `RedisCache.get` with no decode
function returns the empty string (the `None` reply makes `_decode_value`
hit its except branch and yield the default `""`), rather than raising or
returning `None`. -/
theorem c10_get_missing_key_returns_empty_string (s : RedisState) (key : String)
    (h : s.store key = none) :
    RedisCache.get s key none = .ok (.str "") := by
  simp [RedisCache.get, redisGet, h, RedisCache.decode_value]

/-- Witness for C10 at the flushed state and the key `"missing"`. -/
theorem c10_get_missing_key_witness :
    RedisState.flushed.store "missing" = none
    ∧ RedisCache.get RedisState.flushed "missing" none = .ok (.str "") :=
  ⟨rfl, c10_get_missing_key_returns_empty_string RedisState.flushed "missing" rfl⟩

/-- C3: evaluating the code at the failing input: with the key `"k"` holding
the bytes `b"abc"` (valid UTF-8, not a number), `get_int` raises
`ValueError` from `int()` instead of returning the default `0` promised by
its own docstring — the int-parsing lambda has no fallback. -/
theorem c3_get_int_raises_instead_of_default :
    RedisCache.get_int (redisSet "k" (.utf8 "abc") RedisState.flushed) "k"
      = .error .valueError
    ∧ RedisCache.get_int (redisSet "k" (.utf8 "abc") RedisState.flushed) "k"
      ≠ .ok (.int 0) := by
  constructor <;> decide

/-- C1 counterexample: storing the int `42` from a flushed database and
reading the returned key back through `get` yields the string `"42"`, which
is not (Python-)equal to the stored value `42`. -/
theorem c1_roundtrip_counterexample :
    RedisCache.get (RedisCache.store_decorated "k" (PyData.int 42) RedisState.flushed).2.1
      (RedisCache.store_decorated "k" (PyData.int 42) RedisState.flushed).1 none
      = .ok (.str "42")
    ∧ StrOrInt.eqData (.str "42") (PyData.int 42) = false := by
  constructor <;> decide

/-- C1 amended: `get` on the key returned by `store` yields the UTF-8
decoding of the stored byte encoding of the value — in particular exactly
the stored value when it is a `str`, but a string rendering (not the
original value) for `int`, `float`, and `bytes` arguments. -/
theorem c1_roundtrip_amended (genKey : String) (data : PyData) (s : RedisState)
    (hok : incrOk RedisCache.store_qualname s = true) :
    RedisCache.get (RedisCache.store_decorated genKey data s).2.1
      (RedisCache.store_decorated genKey data s).1 none
      = .ok (RedisCache.decode_value (some data.encode) (.str ""))
    ∧ ∀ t, data = .str t →
      RedisCache.get (RedisCache.store_decorated genKey data s).2.1
        (RedisCache.store_decorated genKey data s).1 none = .ok (.str t) := by
  constructor
  · simp [RedisCache.store_decorated, RedisCache.store, RedisCache.get, redisGet,
      redisRpush, redisSet]
  · rintro t rfl
    simp [RedisCache.store_decorated, RedisCache.store, RedisCache.get, redisGet,
      redisRpush, redisSet, RedisCache.decode_value, PyData.encode]

/-- Witness for C1 amended: storing the string `"hello"` from a flushed
database and reading it back returns `"hello"`. -/
theorem c1_roundtrip_witness :
    incrOk RedisCache.store_qualname RedisState.flushed = true
    ∧ RedisCache.get
        (RedisCache.store_decorated "k" (PyData.str "hello") RedisState.flushed).2.1
        (RedisCache.store_decorated "k" (PyData.str "hello") RedisState.flushed).1 none
      = .ok (.str "hello") :=
  ⟨by decide,
    (c1_roundtrip_amended "k" (PyData.str "hello") RedisState.flushed (by decide)).2
      "hello" rfl⟩

/-- C2 counterexample: a fetch of URL `"u"` that returns an empty body
leaves an empty cached entry (present, with its 10-second expiry); because
`if cached_data:` treats the empty byte string as false, a second
`get_page` inside the expiry window refetches (returning the fresh content,
not the cached one) and increments the access counter from 1 to 2. -/
theorem c2_cached_fetch_counterexample :
    (get_page (fun _ => "") "u" RedisState.flushed).2.1.store ("cached:" ++ "u")
      = some (.utf8 "")
    ∧ (get_page (fun _ => "") "u" RedisState.flushed).2.1.ttl ("cached:" ++ "u") = some 10
    ∧ counterValue (get_page (fun _ => "") "u" RedisState.flushed).2.1 ("count:" ++ "u") = 1
    ∧ (get_page (fun _ => "fresh") "u"
        (get_page (fun _ => "") "u" RedisState.flushed).2.1).1 = .ok "fresh"
    ∧ counterValue
        (get_page (fun _ => "fresh") "u"
          (get_page (fun _ => "") "u" RedisState.flushed).2.1).2.1 ("count:" ++ "u")
      = 2 := by
  refine ⟨by decide, by decide, by decide, by decide, by decide⟩

/-- C2 amended: while a nonempty cached body for the URL is present,
`get_page` returns the cached content, performs only the one cache read, and
leaves the whole database — in particular the per-URL access counter —
unchanged. -/
theorem c2_cached_fetch_amended (fetch : String → String) (url body : String)
    (s : RedisState) (hcache : s.store ("cached:" ++ url) = some (.utf8 body))
    (hne : body ≠ "") :
    get_page fetch url s = (.ok body, s, [.get ("cached:" ++ url)]) := by
  have hbody : body.isEmpty = false := by
    cases hb : body.isEmpty
    · rfl
    · exact absurd ((String.isEmpty_iff body).mp hb) hne
  simp [get_page, count_url_access, redisGet, hcache, Bytes.isTruthy, hbody,
    Bytes.decodeStrict]

/-- Witness for C2 amended: with `"hi"` cached for URL `"u"`, `get_page`
returns `"hi"` and leaves the state untouched. -/
theorem c2_cached_fetch_witness :
    (redisSet "cached:u" (.utf8 "hi") RedisState.flushed).store ("cached:" ++ "u")
      = some (.utf8 "hi")
    ∧ get_page (fun _ => "fresh") "u" (redisSet "cached:u" (.utf8 "hi") RedisState.flushed)
      = (.ok "hi", redisSet "cached:u" (.utf8 "hi") RedisState.flushed,
          [.get ("cached:" ++ "u")]) :=
  ⟨by decide,
    c2_cached_fetch_amended (fun _ => "fresh") "u" "hi"
      (redisSet "cached:u" (.utf8 "hi") RedisState.flushed) (by decide) (by decide)⟩

/-- C6: with no cached body present for the URL, `get_page` fetches the
page, returns its body, stores the body under `cached:<url>`, sets the fixed
10-second time-to-live on that entry, and performs exactly the read, the
counter increment, the store, and the expiry. -/
theorem c6_cache_miss_stores_with_ttl (fetch : String → String) (url : String)
    (s : RedisState) (hmiss : s.store ("cached:" ++ url) = none)
    (hok : incrOk ("count:" ++ url) s = true) :
    (get_page fetch url s).1 = .ok (fetch url)
    ∧ (get_page fetch url s).2.1.store ("cached:" ++ url) = some (.utf8 (fetch url))
    ∧ (get_page fetch url s).2.1.ttl ("cached:" ++ url) = some 10
    ∧ (get_page fetch url s).2.2
      = [.get ("cached:" ++ url), .incr ("count:" ++ url),
         .set ("cached:" ++ url) (.utf8 (fetch url)), .expire ("cached:" ++ url) 10] := by
  refine ⟨?_, ?_, ?_, ?_⟩ <;>
    simp [get_page, count_url_access, count_url_access.countUrlAccessMiss, redisGet,
      hmiss, redisSet, redisExpire]

/-- Witness for C6 at the flushed state, URL `"u"`, and a fetch returning
`"x"`. -/
theorem c6_cache_miss_witness :
    RedisState.flushed.store ("cached:" ++ "u") = none
    ∧ incrOk ("count:" ++ "u") RedisState.flushed = true
    ∧ (get_page (fun _ => "x") "u" RedisState.flushed).2.1.store ("cached:" ++ "u")
      = some (.utf8 "x")
    ∧ (get_page (fun _ => "x") "u" RedisState.flushed).2.1.ttl ("cached:" ++ "u")
      = some 10 :=
  ⟨rfl, by decide,
    (c6_cache_miss_stores_with_ttl (fun _ => "x") "u" RedisState.flushed rfl
      (by decide)).2.1,
    (c6_cache_miss_stores_with_ttl (fun _ => "x") "u" RedisState.flushed rfl
      (by decide)).2.2.1⟩

/-- Redis `INCR` touches only the plain-key map, never the lists. -/
theorem redisIncr_lists (k : String) (s : RedisState) : (redisIncr k s).lists = s.lists := by
  unfold redisIncr
  split
  · rfl
  · split <;> rfl

/-- A successful `INCR` leaves the key holding the successor of its previous
integer value (0 for an absent key). -/
theorem redisIncr_store_self (k : String) (s : RedisState) (hok : incrOk k s = true) :
    ((redisIncr k s).store k).bind Bytes.toIntValue = some (counterValue s k + 1) := by
  unfold redisIncr counterValue
  cases hsq : s.store k with
  | none => simp [hsq, Bytes.toIntValue]
  | some b =>
    unfold incrOk at hok
    rw [hsq] at hok
    cases hbv : b.toIntValue with
    | none => simp [hbv] at hok
    | some n =>
      simp only [Option.some_bind, hbv]
      simp [Bytes.toIntValue]

/-- Redis `INCR` leaves every other key untouched. -/
theorem redisIncr_store_other (k q : String) (s : RedisState) (h : q ≠ k) :
    (redisIncr k s).store q = s.store q := by
  unfold redisIncr
  split
  · simp [h]
  · split
    · simp [h]
    · rfl

/-- C4 (the `count_calls` decorator is modelled from the spec): one
invocation of the decorated `RedisCache.store` increases the counter stored
under the function's qualified name by exactly one, whatever its previous
value; the generated data key never coincides with the qualified name. -/
theorem c4_store_counter_increments (genKey : String) (data : PyData) (s : RedisState)
    (hkey : genKey ≠ RedisCache.store_qualname)
    (hok : incrOk RedisCache.store_qualname s = true) :
    counterValue (RedisCache.store_decorated genKey data s).2.1 RedisCache.store_qualname
      = counterValue s RedisCache.store_qualname + 1 := by
  have h1 : (RedisCache.store_decorated genKey data s).2.1.store RedisCache.store_qualname
      = (redisIncr RedisCache.store_qualname s).store RedisCache.store_qualname := by
    simp [RedisCache.store_decorated, RedisCache.store, redisRpush, redisSet, Ne.symm hkey]
  unfold counterValue
  rw [h1, redisIncr_store_self RedisCache.store_qualname s hok]
  rfl

/-- Witness for C4: storing `7` from a flushed database takes the
`RedisCache.store` counter from 0 to 1. -/
theorem c4_store_counter_witness :
    "k" ≠ RedisCache.store_qualname
    ∧ incrOk RedisCache.store_qualname RedisState.flushed = true
    ∧ counterValue
        (RedisCache.store_decorated "k" (PyData.int 7) RedisState.flushed).2.1
        RedisCache.store_qualname
      = counterValue RedisState.flushed RedisCache.store_qualname + 1 :=
  ⟨by decide, by decide,
    c4_store_counter_increments "k" (PyData.int 7) RedisState.flushed (by decide)
      (by decide)⟩

/-- Redis `SET` never touches the lists. -/
theorem redisSet_lists (k : String) (v : Bytes) (s : RedisState) :
    (redisSet k v s).lists = s.lists :=
  rfl

/-- Redis `RPUSH` appends to its own list. -/
theorem redisRpush_lists_self (k : String) (v : Bytes) (s : RedisState) :
    (redisRpush k v s).lists k = s.lists k ++ [v] := by
  simp [redisRpush]

/-- Redis `RPUSH` leaves every other list untouched. -/
theorem redisRpush_lists_other (k q : String) (v : Bytes) (s : RedisState) (h : q ≠ k) :
    (redisRpush k v s).lists q = s.lists q := by
  simp [redisRpush, h]

/-- Appending one pair of valid-UTF-8 entries to the zipped history extends a
successful replay by exactly one formatted line. -/
theorem replayPairs_append_ok (fk : String) (ps : List (Bytes × Bytes)) (a g : String)
    (ls : List String) (h : replayPairs fk ps = .ok ls) :
    replayPairs fk (ps ++ [(Bytes.utf8 a, Bytes.utf8 g)])
      = .ok (ls ++ [replayLine fk a g]) := by
  induction ps generalizing ls with
  | nil =>
    simp [replayPairs] at h
    subst h
    simp [replayPairs, Bytes.decodeStrict]
  | cons p rest ih =>
    obtain ⟨pi, po⟩ := p
    cases hdi : pi.decodeStrict with
    | error e => simp [replayPairs, hdi] at h
    | ok di =>
      cases hdo : po.decodeStrict with
      | error e => simp [replayPairs, hdi, hdo] at h
      | ok dpo =>
        cases hrest : replayPairs fk rest with
        | error e => simp [replayPairs, hdi, hdo, hrest] at h
        | ok ls0 =>
          simp [replayPairs, hdi, hdo, hrest] at h
          subst h
          simp [replayPairs, hdi, hdo, ih ls0 hrest]

/-- C5 (the recording decorator is modelled from the spec, `replay` from the
source): an invocation of the decorated `RedisCache.store` appends its input
to the function's ordered `:inputs` list and its output (the returned key)
to the ordered `:outputs` list, and `replay` then prints one line per
recorded call in call order — the previously replayed lines followed by the
new call, pairing the i-th input with the i-th output. -/
theorem c5_call_history_append (genKey : String) (data : PyData) (s : RedisState)
    (hok : incrOk RedisCache.store_qualname s = true) :
    (RedisCache.store_decorated genKey data s).2.1.lists
        (RedisCache.store_qualname ++ ":inputs")
      = s.lists (RedisCache.store_qualname ++ ":inputs")
        ++ [.utf8 (RedisCache.PyData.asStr data)]
    ∧ (RedisCache.store_decorated genKey data s).2.1.lists
        (RedisCache.store_qualname ++ ":outputs")
      = s.lists (RedisCache.store_qualname ++ ":outputs") ++ [.utf8 genKey]
    ∧ ∀ ls, replay_call_lines RedisCache.store_qualname s = .ok ls →
        (s.lists (RedisCache.store_qualname ++ ":inputs")).length
          = (s.lists (RedisCache.store_qualname ++ ":outputs")).length →
        replay_call_lines RedisCache.store_qualname
            (RedisCache.store_decorated genKey data s).2.1
          = .ok (ls ++ [replayLine RedisCache.store_qualname
              (RedisCache.PyData.asStr data) genKey]) := by
  have hne1 : RedisCache.store_qualname ++ ":inputs"
      ≠ RedisCache.store_qualname ++ ":outputs" := by decide
  have hstate : (RedisCache.store_decorated genKey data s).2.1
      = redisRpush (RedisCache.store_qualname ++ ":outputs") (.utf8 genKey)
          (redisSet genKey data.encode
            (redisRpush (RedisCache.store_qualname ++ ":inputs")
              (.utf8 (RedisCache.PyData.asStr data))
              (redisIncr RedisCache.store_qualname s))) := rfl
  have hin : (RedisCache.store_decorated genKey data s).2.1.lists
      (RedisCache.store_qualname ++ ":inputs")
      = s.lists (RedisCache.store_qualname ++ ":inputs")
        ++ [.utf8 (RedisCache.PyData.asStr data)] := by
    rw [hstate, redisRpush_lists_other _ _ _ _ hne1, redisSet_lists,
      redisRpush_lists_self, redisIncr_lists]
  have hout : (RedisCache.store_decorated genKey data s).2.1.lists
      (RedisCache.store_qualname ++ ":outputs")
      = s.lists (RedisCache.store_qualname ++ ":outputs") ++ [.utf8 genKey] := by
    rw [hstate, redisRpush_lists_self, redisSet_lists,
      redisRpush_lists_other _ _ _ _ (Ne.symm hne1), redisIncr_lists]
  refine ⟨hin, hout, ?_⟩
  intro ls hls hlen
  unfold replay_call_lines redisLrangeAll at hls ⊢
  rw [hin, hout, List.zip_append hlen]
  have happ := replayPairs_append_ok RedisCache.store_qualname
    ((s.lists (RedisCache.store_qualname ++ ":inputs")).zip
      (s.lists (RedisCache.store_qualname ++ ":outputs")))
    (RedisCache.PyData.asStr data) genKey ls hls
  simpa using happ

/-- Witness for C5: the first store of `5` from a flushed database records
`"5"` as input and the key `"k"` as output, and replay prints that single
pairing. -/
theorem c5_call_history_witness :
    incrOk RedisCache.store_qualname RedisState.flushed = true
    ∧ replay_call_lines RedisCache.store_qualname RedisState.flushed = .ok []
    ∧ replay_call_lines RedisCache.store_qualname
        (RedisCache.store_decorated "k" (PyData.int 5) RedisState.flushed).2.1
      = .ok ([] ++ [replayLine RedisCache.store_qualname
          (RedisCache.PyData.asStr (PyData.int 5)) "k"]) :=
  ⟨by decide, by decide,
    (c5_call_history_append "k" (PyData.int 5) RedisState.flushed (by decide)).2.2
      [] (by decide) rfl⟩

/-- C7 counterexample: `RedisCache.__init__` performs a `FLUSHDB` call;
`FLUSHDB` mutates the store (here it erases the key `"a"`), and it is not
one of the four allowlisted atomic operations (set, increment, list-append,
expire). -/
theorem c7_flushdb_counterexample :
    RedisOp.flushdb ∈ (RedisCache.init (redisSet "a" (.utf8 "v") RedisState.flushed)).2
    ∧ RedisOp.isMutation RedisOp.flushdb = true
    ∧ RedisOp.specAllowed RedisOp.flushdb = false
    ∧ (RedisCache.init (redisSet "a" (.utf8 "v") RedisState.flushed)).1.store "a"
      ≠ (redisSet "a" (.utf8 "v") RedisState.flushed).store "a" := by
  refine ⟨by decide, rfl, rfl, by decide⟩

/-- C7 amended: every Redis call any entry point of the system performs —
`__init__`, the decorated `store`, and `get_page` — is either a read or one
of the atomic operations set, increment, list-append, expire, or the
database flush done at initialization. -/
theorem c7_mutation_allowlist_amended (s : RedisState) (genKey : String) (data : PyData)
    (fetch : String → String) (url : String) :
    (RedisCache.init s).2.all RedisOp.specAllowedAmended = true
    ∧ (RedisCache.store_decorated genKey data s).2.2.all RedisOp.specAllowedAmended = true
    ∧ (get_page fetch url s).2.2.all RedisOp.specAllowedAmended = true := by
  refine ⟨rfl, rfl, ?_⟩
  unfold get_page count_url_access count_url_access.countUrlAccessMiss
  rcases h : redisGet ("cached:" ++ url) s with _ | b
  · simp [h, RedisOp.specAllowedAmended, RedisOp.isMutation, RedisOp.inSpecAllowlist]
  · cases hb : b.isTruthy <;>
      simp [h, hb, RedisOp.specAllowedAmended, RedisOp.isMutation, RedisOp.inSpecAllowlist]

/-- The decorated `store` returns exactly the key drawn from the `uuid4`
stream. -/
theorem store_decorated_returns_key (genKey : String) (data : PyData) (s : RedisState) :
    (RedisCache.store_decorated genKey data s).1 = genKey :=
  rfl

/-- The identifiers returned by `n` successive decorated stores are the
first `n` keys of the `uuid4` stream, in call order. -/
theorem runStores_ids (keys : Nat → String) (datas : Nat → PyData) (n : Nat)
    (s : RedisState) :
    (runStores keys datas n s).1 = (List.range n).map keys := by
  induction n with
  | zero => rfl
  | succ m ih => simp [runStores, List.range_succ, ih, store_decorated_returns_key]

/-- C8: under the claim's own premise that the randomness source generates
pairwise-distinct keys (an injective `uuid4` stream), the identifiers
returned by any sequence of distinct calls to the decorated
`RedisCache.store` are pairwise distinct. -/
theorem c8_store_identifiers_unique (keys : Nat → String) (datas : Nat → PyData)
    (n : Nat) (s : RedisState) (hinj : Function.Injective keys) :
    (runStores keys datas n s).1.Nodup := by
  rw [runStores_ids]
  exact List.Nodup.map hinj (List.nodup_range n)

/-- Witness for C8: three stores drawing keys from the injective stream
`n ↦ "a" * n` return pairwise-distinct identifiers. -/
theorem c8_store_identifiers_witness :
    Function.Injective (fun n : Nat => String.mk (List.replicate n 'a'))
    ∧ (runStores (fun n : Nat => String.mk (List.replicate n 'a'))
        (fun _ => PyData.int 0) 3 RedisState.flushed).1.Nodup :=
  have hinj : Function.Injective (fun n : Nat => String.mk (List.replicate n 'a')) :=
    fun i j h => by simpa using congrArg (fun t => t.data.length) h
  ⟨hinj, c8_store_identifiers_unique (fun n : Nat => String.mk (List.replicate n 'a'))
    (fun _ => PyData.int 0) 3 RedisState.flushed hinj⟩
